import Mathlib

/-!
Verification of the pynapi subtitle fetcher (src/pynapi.py) against its
natural-language specification.

A video file on disk is modelled as its byte content: a size and a total
byte function.  Network traffic, XML parsing, base64 decoding and ZIP
extraction are external libraries; they enter the model as oracle values
(one response per HTTP attempt, and response bodies carrying the outcome
the external parser would produce), while every piece of control flow of
pynapi.py itself (retry loops, error classification and accumulation,
prefix checks, emptiness guards, path resolution, skip/backup/write) is
translated directly from the source.
-/

deriving instance DecidableEq for Except

namespace Pynapi

/-- A file's content: its byte size and the byte at each offset.
Reads in the modelled code paths never cross the end of file, so `data`
is total. -/
structure File where
  size : Nat
  data : Nat → Nat

/-- Python's `hash & 0xFFFFFFFFFFFFFFFF` equals `hash % 2^64` on unbounded
ints (the mask keeps the low 64 bits of the two's-complement value, which
is exactly the nonnegative residue). -/
def twoPow64 : Int := 18446744073709551616

/-- `struct.unpack("<q", buffer)` on 8 bytes read at offset `pos`:
the little-endian 64-bit value, as a natural number before sign
interpretation. -/
def le64 (f : File) (pos : Nat) : Nat :=
  f.data pos + f.data (pos + 1) * 256 + f.data (pos + 2) * 256 ^ 2 +
    f.data (pos + 3) * 256 ^ 3 + f.data (pos + 4) * 256 ^ 4 +
    f.data (pos + 5) * 256 ^ 5 + f.data (pos + 6) * 256 ^ 6 +
    f.data (pos + 7) * 256 ^ 7

/-- The signed interpretation `"<q"` gives to the 64-bit value. -/
def sint64 (n : Nat) : Int :=
  if n < 2 ^ 63 then (n : Int) else (n : Int) - 2 ^ 64

/-- One window loop of `napisy24_hash` (pynapi.py lines 87-91 and 94-98):
`count` iterations of reading the next 8 bytes, adding the signed value and
masking to 64 bits.  The file position starts at `pos` and advances by 8
each iteration. -/
def hashWindow (f : File) : Nat → Nat → Int → Int
  | _pos, 0, h => h
  | pos, c + 1, h => hashWindow f (pos + 8) c ((h + sint64 (le64 f pos)) % twoPow64)

/-- The hexadecimal digit characters `0`-`9`, `a`-`f`. -/
def hexDigit (n : Nat) : Char :=
  if n < 10 then Char.ofNat (48 + n) else Char.ofNat (87 + n)

/-- Python's `"%016x" % hash` for `hash < 2^64`: exactly sixteen lowercase
hex digits, most significant first, zero padded. -/
def toHex16 (n : Nat) : String :=
  String.mk ((List.range 16).reverse.map fun i => hexDigit (n / 16 ^ i % 16))

/-- `napisy24_hash` (pynapi.py lines 73-104).  The accumulator starts at
the file size; files smaller than `65536 * 2` bytes raise; otherwise the
first 65536 bytes are folded in as `int(65536 / 8) = 8192` little-endian
signed 64-bit values, the position is seeked to `max(0, filesize - 65536)`
(natural subtraction), the last 65536 bytes are folded in the same way,
and the result is rendered with `"%016x"`. -/
def napisy24_hash (filename : String) (f : File) : Except String String :=
  if f.size < 65536 * 2 then
    .error ("Hashing (napisy24) video file failed: '" ++ filename ++ "': File too small")
  else
    .ok (toHex16
      ((hashWindow f (f.size - 65536) 8192 (hashWindow f 0 8192 (f.size : Int))).toNat))

/-- The bytes `calculate_digest` feeds to md5: `f.read(10485760)`, i.e. the
first `min size 10485760` bytes of the file. -/
def prefixBytes (f : File) : List Nat :=
  (List.range (min f.size 10485760)).map f.data

/-- `calculate_digest` (pynapi.py lines 63-70).  `md5hex` is the external
`hashlib.md5(...).hexdigest()`; `readOk`/`readErr` model whether opening
and reading the file raises `IOError`/`OSError`, which the source wraps
into its own exception message. -/
def calculate_digest (md5hex : List Nat → String) (readOk : Bool) (readErr : String)
    (f : File) : Except String String :=
  if readOk then .ok (md5hex (prefixBytes f))
  else .error ("Hashing video file failed: " ++ readErr)

/-- The per-window sum of signed 64-bit values the specification describes:
`count` consecutive little-endian signed words starting at `pos`. -/
def windowSum (f : File) (pos count : Nat) : Int :=
  Finset.sum (Finset.range count) fun i => sint64 (le64 f (pos + 8 * i))

/-- QuickSignature as the specification's procedure reads once the window
word count is corrected to 8192 (= 65536 / 8): accumulator starts at the
file size as an unsigned 64-bit value, all head-window and tail-window
words are added with wraparound modulo 2^64, and the result is rendered as
a fixed-width 16-digit lowercase hex string. -/
def quickSignature_spec (f : File) : String :=
  toHex16 ((((f.size : Int) % twoPow64 + windowSum f 0 8192
    + windowSum f (f.size - 65536) 8192) % twoPow64).toNat)

/-- QuickSignature exactly as claim C1 states the procedure: the first
65536 bytes contribute "sixteen consecutive little-endian 64-bit signed
integers", and so do the last 65536 bytes. -/
def quickSignature_claim16 (f : File) : String :=
  toHex16 ((((f.size : Int) % twoPow64 + windowSum f 0 16
    + windowSum f (f.size - 65536) 16) % twoPow64).toNat)

lemma emod_add_left_cancel (a b : Int) :
    (a % twoPow64 + b) % twoPow64 = (a + b) % twoPow64 := Int.emod_add_emod a twoPow64 b

lemma hashWindow_emod (f : File) :
    ∀ (c : Nat) (pos : Nat) (h : Int),
      hashWindow f pos c h % twoPow64 = (h + windowSum f pos c) % twoPow64 := by
  intro c
  induction c with
  | zero => intro pos h; simp [hashWindow, windowSum]
  | succ c ih =>
    intro pos h
    have step : hashWindow f pos (c + 1) h
        = hashWindow f (pos + 8) c ((h + sint64 (le64 f pos)) % twoPow64) := rfl
    rw [step, ih, emod_add_left_cancel]
    have peel : windowSum f pos (c + 1)
        = windowSum f (pos + 8) c + sint64 (le64 f (pos + 8 * 0)) := by
      unfold windowSum
      rw [Finset.sum_range_succ']
      congr 1
      refine Finset.sum_congr rfl ?_
      intro i _
      congr 2
      ring
    rw [peel]
    ring_nf

lemma hashWindow_reduced (f : File) :
    ∀ (c : Nat) (pos : Nat) (h : Int),
      hashWindow f pos (c + 1) h % twoPow64 = hashWindow f pos (c + 1) h := by
  intro c
  induction c with
  | zero =>
    intro pos h
    show hashWindow f (pos + 8) 0 ((h + sint64 (le64 f pos)) % twoPow64) % twoPow64 = _
    simp [hashWindow, Int.emod_emod_of_dvd]
  | succ c ih =>
    intro pos h
    show hashWindow f (pos + 8) (c + 1) ((h + sint64 (le64 f pos)) % twoPow64) % twoPow64 = _
    rw [ih]
    rfl

/-- Characterisation of the source hash for large-enough files: the two
sequential masked folds amount to one sum taken modulo 2^64. -/
lemma napisy24_hash_char (filename : String) (f : File) (hs : 131072 ≤ f.size) :
    napisy24_hash filename f
      = .ok (toHex16 ((((f.size : Int) + windowSum f 0 8192
          + windowSum f (f.size - 65536) 8192) % twoPow64).toNat)) := by
  have h1 : hashWindow f (f.size - 65536) 8192 (hashWindow f 0 8192 (f.size : Int))
      = (hashWindow f 0 8192 (f.size : Int) + windowSum f (f.size - 65536) 8192)
          % twoPow64 := by
    have := hashWindow_reduced f 8191 (f.size - 65536) (hashWindow f 0 8192 (f.size : Int))
    rw [show (8191 + 1 : Nat) = 8192 from rfl] at this
    rw [← this, hashWindow_emod]
  have h2 : hashWindow f 0 8192 (f.size : Int)
      = ((f.size : Int) + windowSum f 0 8192) % twoPow64 := by
    have := hashWindow_reduced f 8191 0 (f.size : Int)
    rw [show (8191 + 1 : Nat) = 8192 from rfl] at this
    rw [← this, hashWindow_emod]
  unfold napisy24_hash
  rw [if_neg (by omega), h1, h2, emod_add_left_cancel]

/-- A 131072-byte file of zero bytes. -/
def zeroBig : File := ⟨131072, fun _ => 0⟩

/-- A 131072-byte file whose only nonzero byte sits at offset 200 — inside
the first 65536-byte window, but beyond the first sixteen 64-bit words. -/
def oneAt200 : File := ⟨131072, fun k => if k = 200 then 1 else 0⟩

lemma windowSum_zeroBig (pos count : Nat) : windowSum zeroBig pos count = 0 := by
  unfold windowSum
  refine Finset.sum_eq_zero ?_
  intro i _
  simp [le64, sint64, zeroBig]

lemma napisy24_hash_zeroBig (filename : String) :
    napisy24_hash filename zeroBig = .ok (toHex16 131072) := by
  rw [napisy24_hash_char filename zeroBig (by decide), windowSum_zeroBig, windowSum_zeroBig]
  decide

lemma le64_oneAt200_eq_zero (p : Nat) (hlo : ¬ (p ≤ 200 ∧ 200 < p + 8)) :
    le64 oneAt200 p = 0 := by
  unfold le64 oneAt200
  simp only
  norm_num
  omega

lemma windowSum_oneAt200_head : windowSum oneAt200 0 8192 = 1 := by
  unfold windowSum
  rw [Finset.sum_eq_single_of_mem 25 (Finset.mem_range.mpr (by norm_num))]
  · decide
  · intro b _ hb
    rw [le64_oneAt200_eq_zero (0 + 8 * b) (by omega)]
    decide

lemma windowSum_oneAt200_tail : windowSum oneAt200 (oneAt200.size - 65536) 8192 = 0 := by
  unfold windowSum
  refine Finset.sum_eq_zero ?_
  intro i _
  rw [le64_oneAt200_eq_zero (oneAt200.size - 65536 + 8 * i)
    (by show ¬ (131072 - 65536 + 8 * i ≤ 200 ∧ _); omega)]
  decide

/-- C1, counterexample.  The claim reads each 65536-byte window as
"sixteen consecutive little-endian 64-bit signed integers"; the code reads
`int(65536 / 8) = 8192` of them.  On a 131072-byte file whose only nonzero
byte is at offset 200 (word 25 of the head window) the code's hash is
131073 = 0x20001, while the claimed sixteen-word procedure never reaches
offset 200 and yields 131072 = 0x20000. -/
theorem C1_counterexample :
    napisy24_hash "movie.avi" oneAt200 = .ok (toHex16 131073)
      ∧ quickSignature_claim16 oneAt200 = toHex16 131072
      ∧ toHex16 131073 ≠ toHex16 131072 := by
  refine ⟨?_, ?_, by decide⟩
  · rw [napisy24_hash_char "movie.avi" oneAt200 (by decide),
      windowSum_oneAt200_head, windowSum_oneAt200_tail]
    decide
  · have hh : windowSum oneAt200 0 16 = 0 := by
      refine Finset.sum_eq_zero ?_
      intro i hi
      rw [le64_oneAt200_eq_zero (0 + 8 * i)
        (by have := Finset.mem_range.mp hi; omega)]
      decide
    have ht : windowSum oneAt200 (oneAt200.size - 65536) 16 = 0 := by
      refine Finset.sum_eq_zero ?_
      intro i _
      rw [le64_oneAt200_eq_zero (oneAt200.size - 65536 + 8 * i)
        (by show ¬ (131072 - 65536 + 8 * i ≤ 200 ∧ _); omega)]
      decide
    unfold quickSignature_claim16
    rw [hh, ht]
    decide

/-- C1, amended: for every file of at least 131072 bytes, the code's
QuickSignature follows the spec's procedure with each 65536-byte window
read as 8192 (not sixteen) consecutive little-endian 64-bit signed
integers: accumulator starts at the file size as an unsigned 64-bit value,
every word of the head window and of the tail window starting at
`max(0, size - 65536)` is added with wraparound modulo 2^64, and the
result is rendered as a fixed-width 16-digit lowercase hex string. -/
theorem C1_quickSignature_amended (filename : String) (f : File)
    (hs : 131072 ≤ f.size) :
    napisy24_hash filename f = .ok (quickSignature_spec f) := by
  rw [napisy24_hash_char filename f hs]
  unfold quickSignature_spec
  rw [add_assoc ((f.size : Int) % twoPow64), emod_add_left_cancel, ← add_assoc]

/-- Witness for C1's amended theorem at a concrete 131072-byte file. -/
theorem C1_quickSignature_amended_witness :
    131072 ≤ zeroBig.size
      ∧ napisy24_hash "movie.avi" zeroBig = .ok (quickSignature_spec zeroBig) :=
  ⟨by decide, C1_quickSignature_amended "movie.avi" zeroBig (by decide)⟩

/-- A 10-byte file, below the QuickSignature threshold. -/
def smallFile : File := ⟨10, fun _ => 0⟩

/-- The empty file. -/
def emptyFile : File := ⟨0, fun _ => 0⟩

/-- C2: for every file smaller than 131072 bytes the QuickSignature
computation fails (`napisy24_hash` raises its "File too small" error and
never returns a signature), while `calculate_digest` succeeds for a
readable file of any size, and on the empty file it returns the digest of
zero bytes read. -/
theorem C2_small_quick_fails_digest_total :
    (∀ (filename : String) (f : File), f.size < 131072 →
      napisy24_hash filename f
        = .error ("Hashing (napisy24) video file failed: '" ++ filename
            ++ "': File too small"))
    ∧ (∀ (md5hex : List Nat → String) (readErr : String) (f : File),
        calculate_digest md5hex true readErr f = .ok (md5hex (prefixBytes f)))
    ∧ (∀ (md5hex : List Nat → String) (readErr : String) (f : File), f.size = 0 →
        calculate_digest md5hex true readErr f = .ok (md5hex [])) := by
  refine ⟨?_, fun _ _ _ => rfl, ?_⟩
  · intro filename f hf
    unfold napisy24_hash
    rw [if_pos (by omega)]
  · intro md5hex readErr f hf
    unfold calculate_digest prefixBytes
    rw [hf]
    rfl

/-- Witness for C2 at a 10-byte file and at the empty file. -/
theorem C2_witness :
    smallFile.size < 131072
      ∧ napisy24_hash "clip.avi" smallFile
          = .error ("Hashing (napisy24) video file failed: '" ++ "clip.avi"
              ++ "': File too small")
      ∧ emptyFile.size = 0
      ∧ calculate_digest (fun _ => "digest-of-nothing") true "" emptyFile
          = .ok "digest-of-nothing" :=
  ⟨by decide, C2_small_quick_fails_digest_total.1 "clip.avi" smallFile (by decide),
    rfl, C2_small_quick_fails_digest_total.2.2 (fun _ => "digest-of-nothing") "" emptyFile rfl⟩

/-- Python's `==` between a `bytes` value and the `str` literal `""`
(lines 160 and 215 of pynapi.py): values of different types are never
equal, so this comparison is `False` for every byte payload, including
`b""`. -/
def pyEqBytesStr (_b : List Nat) (_s : String) : Bool := false

/-- What one HTTP attempt of the napiprojekt provider yields, as the
external libraries report it: a transport exception from `requests.post`,
or a response with its HTTP-ok flag, status code, and the outcome of
parsing the body. -/
inductive PrimaryBody where
  /-- `etree.fromstring` raises with this message. -/
  | malformed (msg : String)
  /-- The document parses.  `statusText` is the `status` element's text if
  the element exists (`none` = no `status` element; `some none` = element
  with `None` text).  `contentDecode` is `none` when `subtitles/content`
  is absent (`content.text` then raises `AttributeError`), and otherwise
  the outcome of `base64.b64decode` on its text. -/
  | doc (statusText : Option (Option String))
        (contentDecode : Option (Except String (List Nat)))
  deriving DecidableEq

/-- One attempt of the napiprojekt provider as seen on the wire. -/
inductive PrimaryResp where
  /-- `requests.post` raises `IOError`/`OSError` with this message. -/
  | transport (msg : String)
  /-- A response arrives: `r.ok`, `r.status_code`, parsed body. -/
  | http (ok : Bool) (status : Nat) (body : PrimaryBody)
  deriving DecidableEq

/-- The observable run of one provider call: the returned bytes or the
raised exception's message, how many HTTP attempts were consumed, and how
many fixed 500 ms backoff sleeps were performed. -/
structure PRun where
  result : Except String (List Nat)
  attempts : Nat
  sleeps : Nat
  deriving DecidableEq

/-- Message of the `AttributeError` raised by `content.text` when
`root.find("subtitles/content")` returned `None`. -/
def noneAttrMsg : String := "'NoneType' object has no attribute 'text'"

/-- The final guard of `get_subtitle_napiprojekt` (lines 215-218):
`sub` was initialised to `None` (line 180), so on exhaustion the
accumulated error is raised; a bytes payload is never equal to `""`. -/
def npFinish (sub : Option (List Nat)) (error : String) (attempts sleeps : Nat) : PRun :=
  match sub with
  | none => ⟨.error error, attempts, sleeps⟩
  | some bs =>
    if pyEqBytesStr bs "" then ⟨.error error, attempts, sleeps⟩
    else ⟨.ok bs, attempts, sleeps⟩

/-- The retry loop of `get_subtitle_napiprojekt` (lines 182-213).  Every
failure inside the loop body — transport error, non-ok HTTP status, XML
parse failure, missing content element, base64 failure, and the
`Exception("Subtitle NOT FOUND")` raised on a non-success status, which is
caught by the surrounding `except Exception` — appends to the error string,
sleeps 0.5 s and continues; only a successful decode breaks out. -/
def npLoop (responses : Nat → PrimaryResp) :
    Nat → Nat → Option (List Nat) → String → Nat → PRun
  | 0, idx, sub, error, sleeps => npFinish sub error idx sleeps
  | rpt + 1, idx, sub, error, sleeps =>
    match responses idx with
    | .transport m =>
      npLoop responses rpt (idx + 1) sub (error ++ " " ++ m) (sleeps + 1)
    | .http ok code body =>
      if ok = false then
        npLoop responses rpt (idx + 1) sub
          (error ++ ", HTTP code: " ++ toString code) (sleeps + 1)
      else
        match body with
        | .malformed m =>
          npLoop responses rpt (idx + 1) sub
            (error ++ " XML parsing: " ++ m) (sleeps + 1)
        | .doc statusText contentDecode =>
          if statusText = some (some "success") then
            match contentDecode with
            | none =>
              npLoop responses rpt (idx + 1) sub
                (error ++ " XML parsing: " ++ noneAttrMsg) (sleeps + 1)
            | some (.error m) =>
              npLoop responses rpt (idx + 1) sub
                (error ++ " XML parsing: " ++ m) (sleeps + 1)
            | some (.ok bs) => npFinish (some bs) error (idx + 1) sleeps
          else
            npLoop responses rpt (idx + 1) sub
              (error ++ " XML parsing: Subtitle NOT FOUND") (sleeps + 1)

/-- `get_subtitle_napiprojekt` (lines 166-218): up to 3 attempts,
`sub = None`, error prefix as in the source.  The request data (digest,
language, fixed fields) is sent to the server; the oracle `responses`
already reflects whatever the server answers. -/
def get_subtitle_napiprojekt (_digest _lang : String)
    (responses : Nat → PrimaryResp) : PRun :=
  npLoop responses 3 0 none "Fetching subtitle (napiprojekt) failed:" 0

/-- One attempt of the napisy24 provider: a transport exception, or a
response with its ok flag, status code and raw byte content. -/
inductive SecondaryResp where
  /-- `requests.post` raises `IOError`/`OSError` with this message. -/
  | transport (msg : String)
  /-- A response arrives: `r.ok`, `r.status_code`, `r.content`. -/
  | http (ok : Bool) (status : Nat) (content : List Nat)
  deriving DecidableEq

/-- Whether the first list is a leading run of the second
(`bytes.startswith` / `str.startswith`). -/
def listIsPref {α : Type} [DecidableEq α] : List α → List α → Bool
  | [], _ => true
  | _ :: _, [] => false
  | a :: as, b :: bs => a = b && listIsPref as bs

/-- Helper for `bytesFind`: try every start position in order. -/
def bytesFindAux (pat : List Nat) : List Nat → Nat → Int
  | [], i => if listIsPref pat [] then (i : Int) else -1
  | h :: t, i => if listIsPref pat (h :: t) then (i : Int) else bytesFindAux pat t (i + 1)

/-- Python `bytes.find`: lowest index where `pat` occurs in `hay`, else -1. -/
def bytesFind (hay pat : List Nat) : Int := bytesFindAux pat hay 0

/-- The bytes of `b"OK-2|"`. -/
def okTwoBarMarker : List Nat := [79, 75, 45, 50, 124]

/-- The bytes of `b"OK-"`. -/
def okDashMarker : List Nat := [79, 75, 45]

/-- The bytes of `b"||"`. -/
def barBar : List Nat := [124, 124]

/-- Message of the `UnboundLocalError` raised at line 160 when the loop
exhausted without ever assigning `sub` — unlike the napiprojekt provider,
`get_subtitle_napisy24` never initialises `sub` before its loop. -/
def unboundLocalMsg : String := "local variable 'sub' referenced before assignment"

/-- Lines 160-163 of `get_subtitle_napisy24`.  `sub` has no initial
assignment in this function: reading it after an exhausted loop raises
`UnboundLocalError`, so the accumulated `error` string can only be raised
through the (never-true) `sub == ""` comparison. -/
def n24Finish (sub : Option (List Nat)) (error : String) (attempts sleeps : Nat) : PRun :=
  match sub with
  | none => ⟨.error unboundLocalMsg, attempts, sleeps⟩
  | some bs =>
    if pyEqBytesStr bs "" then ⟨.error error, attempts, sleeps⟩
    else ⟨.ok bs, attempts, sleeps⟩

/-- The retry loop of `get_subtitle_napisy24` (lines 124-158).  Transport
errors and non-ok HTTP statuses append to the error string, sleep and
continue; a response that reaches the body classification either succeeds
(`sub` assigned, `repeat = 0`, loop exits into the final guard) or raises
out of the whole function — those raises are not caught anywhere in this
function.  `zipRead` models `zipfile.ZipFile(...).read(namelist()[0])` on
the bytes after the `||` marker. -/
def n24Loop (responses : Nat → SecondaryResp)
    (zipRead : List Nat → Except String (List Nat)) :
    Nat → Nat → Option (List Nat) → String → Nat → PRun
  | 0, idx, sub, error, sleeps => n24Finish sub error idx sleeps
  | rpt + 1, idx, sub, error, sleeps =>
    match responses idx with
    | .transport m =>
      n24Loop responses zipRead rpt (idx + 1) sub (error ++ " " ++ m) (sleeps + 1)
    | .http ok code subdata =>
      if ok = false then
        n24Loop responses zipRead rpt (idx + 1) sub
          (error ++ ", HTTP code: " ++ toString code) (sleeps + 1)
      else
        if listIsPref okTwoBarMarker subdata then
          let pos := bytesFind subdata barBar
          if 2 ≤ pos ∧ pos + 2 < (subdata.length : Int) then
            match zipRead (subdata.drop (pos + 2).toNat) with
            | .ok s => n24Finish (some s) error (idx + 1) sleeps
            | .error e => ⟨.error ("Subtitle NOT FOUND " ++ e), idx + 1, sleeps⟩
          else ⟨.error "Subtitle NOT FOUND (subtitle too short)", idx + 1, sleeps⟩
        else if listIsPref okDashMarker subdata then
          ⟨.error "Subtitle NOT FOUND", idx + 1, sleeps⟩
        else ⟨.error "Subtitle NOT FOUND (unknown error)", idx + 1, sleeps⟩

/-- The form data `get_subtitle_napisy24` posts (lines 113-122), built
before the retry loop; building it computes the QuickSignature, whose
failure propagates out.  The `md5` pair is appended only when `digest` is
truthy (Python `if digest:` — `None` is modelled as `""`). -/
def napisy24_pdata (filename digest lang : String) (video : File) :
    Except String (List (String × String)) :=
  match napisy24_hash filename video with
  | .error e => .error e
  | .ok h =>
    .ok ([("postAction", "CheckSub"), ("ua", "pynapi"), ("ap", "XaA!29OkF5Pe"),
          ("nl", lang), ("fn", filename), ("fh", h), ("fs", toString video.size)]
      ++ (if digest = "" then [] else [("md5", digest)]))

/-- `get_subtitle_napisy24` (lines 107-163): build the form data
(computing the QuickSignature of the video file; its failure propagates
with zero attempts made), then run the retry loop with 3 attempts and the
source's error prefix. -/
def get_subtitle_napisy24 (filename digest lang : String) (video : File)
    (responses : Nat → SecondaryResp)
    (zipRead : List Nat → Except String (List Nat)) : PRun :=
  match napisy24_pdata filename digest lang video with
  | .error e => ⟨.error e, 0, 0⟩
  | .ok _pdata => n24Loop responses zipRead 3 0 none "Fetching subtitle (napisy24) failed:" 0

/-- `str.startswith`, computed on the character lists so that concrete
instances reduce inside the kernel. -/
def strStartsWith (s pat : String) : Bool := listIsPref pat.data s.data

/-- `str.endswith`, computed on the character lists. -/
def strEndsWith (s pat : String) : Bool := listIsPref pat.data.reverse s.data.reverse

/-- Python `s[:-n]`: the string without its last `n` characters. -/
def strDropRight (s : String) (n : Nat) : String :=
  String.mk (s.data.take (s.data.length - n))

/-- Helper for `splitChar`: accumulate the current segment (reversed). -/
def splitCharAux (c : Char) : List Char → List Char → List String
  | [], acc => [String.mk acc.reverse]
  | x :: xs, acc =>
    if x = c then String.mk acc.reverse :: splitCharAux c xs []
    else splitCharAux c xs (x :: acc)

/-- Python `str.split` on a single-character separator: always a nonempty
list of segments, with empty segments kept. -/
def splitChar (c : Char) (s : String) : List String := splitCharAux c s.data []

/-- The language table `languages = {"pl": "PL", "en": "ENG"}` (line 46);
`none` models a `KeyError` on lookup. -/
def languages (l : String) : Option String :=
  if l = "pl" then some "PL" else if l = "en" then some "ENG" else none

/-- Python `file.split(":")[-1]`: the last colon-separated segment
(`str.split` always returns a nonempty list). -/
def lastColonSeg (s : String) : String := (splitChar ':' s).getLastD ""

/-- `os.path.split(p)[1]` on POSIX: everything after the last slash. -/
def osBasename (p : String) : String := (splitChar '/' p).getLastD ""

/-- `os.path.join(a, b)` on POSIX for a single join: an absolute `b`
replaces `a`; otherwise a slash is inserted unless already present. -/
def osJoin (a b : String) : String :=
  if strStartsWith b "/" then b
  else if a = "" || strEndsWith a "/" then a ++ b
  else a ++ "/" ++ b

/-- Output-path resolution of `process_file` (lines 226-237): a
`napiprojekt:` token maps to `<last colon segment>.txt`; otherwise a name
longer than 4 characters has its last four characters dropped and `.txt`
appended, and a short name gets `.txt` appended whole.  A truthy `--dest`
rebases onto that directory with the base name. -/
def resolve_vfile (file : String) (dest : Option String) : String :=
  let vfile :=
    if strStartsWith file "napiprojekt:" then lastColonSeg file ++ ".txt"
    else if file.length > 4 then strDropRight file 4 ++ ".txt"
    else file ++ ".txt"
  match dest with
  | some d => if d = "" then vfile else osJoin d (osBasename vfile)
  | none => vfile

/-- Joining name segments back with dots. -/
def joinDots : List String → String
  | [] => ""
  | [s] => s
  | s :: rest => s ++ "." ++ joinDots rest

/-- Output-filename resolution as claim C8 words it for non-token inputs
longer than 4 characters: the existing extension (the suffix from the last
dot of the base name, if any) replaced by `.txt`. -/
def replaceExt_claim (file : String) : String :=
  let base := osBasename file
  let stem :=
    if (splitChar '.' base).length > 1 then joinDots ((splitChar '.' base).dropLast)
    else base
  let dir := strDropRight file base.length
  dir ++ stem ++ ".txt"

/-- The filesystem visible to one `process_file` run: each path either
holds byte content or does not exist. -/
def FS : Type := String → Option (List Nat)

/-- `os.rename src dst`: `dst` now holds what `src` held, `src` is gone. -/
def fsRename (fs : FS) (src dst : String) : FS :=
  fun p => if p = dst then fs src else if p = src then none else fs p

/-- Writing `content` to `p` (`open(p, "wb")` + write). -/
def fsWrite (fs : FS) (p : String) (content : List Nat) : FS :=
  fun q => if q = p then some content else fs q

/-- Terminal per-file outcome, with the reported text. -/
inductive Outcome where
  | written (path : String) (byteCount : Nat)
  | skipped (reason : String)
  | failed (reason : String)
  deriving DecidableEq

/-- How one `process_file` invocation ends: a reported outcome (the
function returned), or an exception that escaped the per-file boundary. -/
inductive PfResult where
  | done (o : Outcome)
  | escaped (msg : String)
  deriving DecidableEq

/-- The argparse options `process_file` consults. -/
structure Args where
  lang : String
  nobackup : Bool
  update : Bool
  dest : Option String

/-- The environment of one `process_file` run: the video file's bytes, the
external md5, whether reading / renaming / writing succeeds (with the
exception text when not), and the two providers' wire behaviour. -/
structure Env where
  video : File
  md5hex : List Nat → String
  readOk : Bool
  readErr : String
  renameOk : Bool
  renameErr : String
  primary : Nat → PrimaryResp
  secondary : Nat → SecondaryResp
  zipRead : List Nat → Except String (List Nat)
  writeOk : Bool
  writeErr : String

/-- The digest step of `process_file` (lines 224-227 and 261-266): a
`napiprojekt:` token supplies the digest directly unless falsy; otherwise
`calculate_digest` runs, and its failure is what the bare `except` reports. -/
def digestStage (env : Env) (file : String) : Except String String :=
  let digest0 : Option String :=
    if strStartsWith file "napiprojekt:" then some (lastColonSeg file) else none
  match digest0 with
  | some d =>
    if d = "" then calculate_digest env.md5hex env.readOk env.readErr env.video
    else .ok d
  | none => calculate_digest env.md5hex env.readOk env.readErr env.video

/-- Line 269: `get_subtitle_napiprojekt(digest, languages[args.lang])`.
A missing language key raises `KeyError` while evaluating the argument,
inside the same `try`, so it counts as a primary failure. -/
def primaryAttempt (digest lang : String) (responses : Nat → PrimaryResp) :
    Except String (List Nat) :=
  match languages lang with
  | some plang => (get_subtitle_napiprojekt digest plang responses).result
  | none => .error ("KeyError: '" ++ lang ++ "'")

/-- The provider chain of `process_file` (lines 268-275): try napiprojekt;
on any failure try napisy24 with the same file, digest and raw language;
napisy24's failure is the one the inner `except` reports. -/
def fetchPhase (file digest lang : String) (video : File)
    (primary : Nat → PrimaryResp) (secondary : Nat → SecondaryResp)
    (zipRead : List Nat → Except String (List Nat)) : Except String (List Nat) :=
  match primaryAttempt digest lang primary with
  | .ok s => .ok s
  | .error _ => (get_subtitle_napisy24 file digest lang video secondary zipRead).result

/-- `process_file` (lines 221-280): resolve the output path; skip when not
updating and the output exists; back the old output up (a rename failure
returns early with the old file untouched); resolve the digest; run the
provider chain; finally write the subtitle — this last write is the only
step outside every `try`, so its failure escapes the per-file boundary. -/
def process_file (args : Args) (file : String) (env : Env) (fs : FS) :
    FS × PfResult :=
  let vfile := resolve_vfile file args.dest
  if !args.update && (fs vfile).isSome then
    (fs, .done (.skipped ("Skipping because update flag not set and '" ++ vfile
      ++ "' already exists")))
  else
    let backup : Except String FS :=
      if !args.nobackup && (fs vfile).isSome then
        if env.renameOk then .ok (fsRename fs vfile (vfile ++ "-bak"))
        else .error ("Skipping due to backup of '" ++ vfile ++ "' as '"
          ++ (vfile ++ "-bak") ++ "' failure: " ++ env.renameErr)
      else .ok fs
    match backup with
    | .error m => (fs, .done (.failed m))
    | .ok fs1 =>
      match digestStage env file with
      | .error e => (fs1, .done (.failed e))
      | .ok digest =>
        match fetchPhase file digest args.lang env.video env.primary env.secondary
            env.zipRead with
        | .error e => (fs1, .done (.failed e))
        | .ok sub =>
          if env.writeOk then
            (fsWrite fs1 vfile sub, .done (.written vfile sub.length))
          else (fs1, .escaped env.writeErr)

/-- The empty filesystem. -/
def fs0 : FS := fun _ => none

/-- A primary-provider wire that always raises a transport error. -/
def primaryTransport : Nat → PrimaryResp := fun _ => .transport "connection refused"

/-- A primary-provider wire whose every response is a success document
decoding to `bs`. -/
def okPrimary (bs : List Nat) : Nat → PrimaryResp :=
  fun _ => .http true 200 (.doc (some (some "success")) (some (.ok bs)))

/-- A secondary-provider wire that always raises a transport error. -/
def transportOnly : Nat → SecondaryResp := fun _ => .transport "connection refused"

/-- A zip reader that always fails. -/
def zipNone : List Nat → Except String (List Nat) := fun _ => .error "not a zip"

lemma npFinish_none (error : String) (a s : Nat) :
    npFinish none error a s = ⟨.error error, a, s⟩ := rfl

lemma npFinish_some (bs : List Nat) (error : String) (a s : Nat) :
    npFinish (some bs) error a s = ⟨.ok bs, a, s⟩ := by
  unfold npFinish pyEqBytesStr
  simp

lemma n24Finish_none (error : String) (a s : Nat) :
    n24Finish none error a s = ⟨.error unboundLocalMsg, a, s⟩ := rfl

lemma n24Finish_some (bs : List Nat) (error : String) (a s : Nat) :
    n24Finish (some bs) error a s = ⟨.ok bs, a, s⟩ := by
  unfold n24Finish pyEqBytesStr
  simp

lemma np_step_transport (resp : Nat → PrimaryResp) (r idx : Nat)
    (sub : Option (List Nat)) (error : String) (sleeps : Nat) (m : String)
    (h : resp idx = .transport m) :
    npLoop resp (r + 1) idx sub error sleeps
      = npLoop resp r (idx + 1) sub (error ++ " " ++ m) (sleeps + 1) := by
  simp only [npLoop, h]

lemma np_step_httpFail (resp : Nat → PrimaryResp) (r idx : Nat)
    (sub : Option (List Nat)) (error : String) (sleeps : Nat)
    (code : Nat) (body : PrimaryBody)
    (h : resp idx = .http false code body) :
    npLoop resp (r + 1) idx sub error sleeps
      = npLoop resp r (idx + 1) sub (error ++ ", HTTP code: " ++ toString code)
          (sleeps + 1) := by
  simp only [npLoop, h]
  simp

lemma np_step_malformed (resp : Nat → PrimaryResp) (r idx : Nat)
    (sub : Option (List Nat)) (error : String) (sleeps : Nat)
    (code : Nat) (m : String)
    (h : resp idx = .http true code (.malformed m)) :
    npLoop resp (r + 1) idx sub error sleeps
      = npLoop resp r (idx + 1) sub (error ++ " XML parsing: " ++ m) (sleeps + 1) := by
  simp only [npLoop, h]
  simp

lemma np_step_attrErr (resp : Nat → PrimaryResp) (r idx : Nat)
    (sub : Option (List Nat)) (error : String) (sleeps : Nat)
    (code : Nat)
    (h : resp idx = .http true code (.doc (some (some "success")) none)) :
    npLoop resp (r + 1) idx sub error sleeps
      = npLoop resp r (idx + 1) sub (error ++ " XML parsing: " ++ noneAttrMsg)
          (sleeps + 1) := by
  simp only [npLoop, h]
  simp

lemma np_step_decodeErr (resp : Nat → PrimaryResp) (r idx : Nat)
    (sub : Option (List Nat)) (error : String) (sleeps : Nat)
    (code : Nat) (m : String)
    (h : resp idx = .http true code (.doc (some (some "success")) (some (.error m)))) :
    npLoop resp (r + 1) idx sub error sleeps
      = npLoop resp r (idx + 1) sub (error ++ " XML parsing: " ++ m) (sleeps + 1) := by
  simp only [npLoop, h]
  simp

lemma np_step_notFound (resp : Nat → PrimaryResp) (r idx : Nat)
    (sub : Option (List Nat)) (error : String) (sleeps : Nat)
    (code : Nat) (st : Option (Option String))
    (cd : Option (Except String (List Nat)))
    (h : resp idx = .http true code (.doc st cd))
    (hst : st ≠ some (some "success")) :
    npLoop resp (r + 1) idx sub error sleeps
      = npLoop resp r (idx + 1) sub (error ++ " XML parsing: Subtitle NOT FOUND")
          (sleeps + 1) := by
  simp only [npLoop, h, hst]
  simp [hst]

lemma np_step_success (resp : Nat → PrimaryResp) (r idx : Nat)
    (sub : Option (List Nat)) (error : String) (sleeps : Nat)
    (code : Nat) (bs : List Nat)
    (h : resp idx = .http true code (.doc (some (some "success")) (some (.ok bs)))) :
    npLoop resp (r + 1) idx sub error sleeps = ⟨.ok bs, idx + 1, sleeps⟩ := by
  simp only [npLoop, h]
  simp [npFinish_some]

lemma n24_step_transport (resp : Nat → SecondaryResp)
    (zipRead : List Nat → Except String (List Nat)) (r idx : Nat)
    (sub : Option (List Nat)) (error : String) (sleeps : Nat) (m : String)
    (h : resp idx = .transport m) :
    n24Loop resp zipRead (r + 1) idx sub error sleeps
      = n24Loop resp zipRead r (idx + 1) sub (error ++ " " ++ m) (sleeps + 1) := by
  simp only [n24Loop, h]

lemma n24_step_httpFail (resp : Nat → SecondaryResp)
    (zipRead : List Nat → Except String (List Nat)) (r idx : Nat)
    (sub : Option (List Nat)) (error : String) (sleeps : Nat)
    (code : Nat) (content : List Nat)
    (h : resp idx = .http false code content) :
    n24Loop resp zipRead (r + 1) idx sub error sleeps
      = n24Loop resp zipRead r (idx + 1) sub
          (error ++ ", HTTP code: " ++ toString code) (sleeps + 1) := by
  simp only [n24Loop, h]
  simp

lemma n24_step_okDash (resp : Nat → SecondaryResp)
    (zipRead : List Nat → Except String (List Nat)) (r idx : Nat)
    (sub : Option (List Nat)) (error : String) (sleeps : Nat)
    (code : Nat) (content : List Nat)
    (h : resp idx = .http true code content)
    (h2 : listIsPref okTwoBarMarker content = false)
    (h3 : listIsPref okDashMarker content = true) :
    n24Loop resp zipRead (r + 1) idx sub error sleeps
      = ⟨.error "Subtitle NOT FOUND", idx + 1, sleeps⟩ := by
  simp only [n24Loop, h, h2, h3]
  simp [h2, h3]

lemma n24_step_unknown (resp : Nat → SecondaryResp)
    (zipRead : List Nat → Except String (List Nat)) (r idx : Nat)
    (sub : Option (List Nat)) (error : String) (sleeps : Nat)
    (code : Nat) (content : List Nat)
    (h : resp idx = .http true code content)
    (h2 : listIsPref okTwoBarMarker content = false)
    (h3 : listIsPref okDashMarker content = false) :
    n24Loop resp zipRead (r + 1) idx sub error sleeps
      = ⟨.error "Subtitle NOT FOUND (unknown error)", idx + 1, sleeps⟩ := by
  simp only [n24Loop, h, h2, h3]
  simp [h2, h3]

lemma n24_step_zipOk (resp : Nat → SecondaryResp)
    (zipRead : List Nat → Except String (List Nat)) (r idx : Nat)
    (sub : Option (List Nat)) (error : String) (sleeps : Nat)
    (code : Nat) (content : List Nat) (s : List Nat)
    (h : resp idx = .http true code content)
    (h2 : listIsPref okTwoBarMarker content = true)
    (hpos : 2 ≤ bytesFind content barBar
      ∧ bytesFind content barBar + 2 < (content.length : Int))
    (hzip : zipRead (content.drop (bytesFind content barBar + 2).toNat) = .ok s) :
    n24Loop resp zipRead (r + 1) idx sub error sleeps = ⟨.ok s, idx + 1, sleeps⟩ := by
  simp only [n24Loop, h]
  simp [h2, hpos, hzip, n24Finish_some]

lemma n24_step_zipErr (resp : Nat → SecondaryResp)
    (zipRead : List Nat → Except String (List Nat)) (r idx : Nat)
    (sub : Option (List Nat)) (error : String) (sleeps : Nat)
    (code : Nat) (content : List Nat) (e : String)
    (h : resp idx = .http true code content)
    (h2 : listIsPref okTwoBarMarker content = true)
    (hpos : 2 ≤ bytesFind content barBar
      ∧ bytesFind content barBar + 2 < (content.length : Int))
    (hzip : zipRead (content.drop (bytesFind content barBar + 2).toNat) = .error e) :
    n24Loop resp zipRead (r + 1) idx sub error sleeps
      = ⟨.error ("Subtitle NOT FOUND " ++ e), idx + 1, sleeps⟩ := by
  simp only [n24Loop, h]
  simp [h2, hpos, hzip]

lemma n24_step_tooShort (resp : Nat → SecondaryResp)
    (zipRead : List Nat → Except String (List Nat)) (r idx : Nat)
    (sub : Option (List Nat)) (error : String) (sleeps : Nat)
    (code : Nat) (content : List Nat)
    (h : resp idx = .http true code content)
    (h2 : listIsPref okTwoBarMarker content = true)
    (hpos : ¬ (2 ≤ bytesFind content barBar
      ∧ bytesFind content barBar + 2 < (content.length : Int))) :
    n24Loop resp zipRead (r + 1) idx sub error sleeps
      = ⟨.error "Subtitle NOT FOUND (subtitle too short)", idx + 1, sleeps⟩ := by
  simp only [n24Loop, h]
  simp [h2, hpos]

/-- When the form data builds (the QuickSignature succeeded), the
napisy24 call is its retry loop. -/
lemma get_n24_eq_loop (filename digest lang : String) (video : File)
    (resp : Nat → SecondaryResp) (zipRead : List Nat → Except String (List Nat))
    (pd : List (String × String))
    (h : napisy24_pdata filename digest lang video = .ok pd) :
    get_subtitle_napisy24 filename digest lang video resp zipRead
      = n24Loop resp zipRead 3 0 none "Fetching subtitle (napisy24) failed:" 0 := by
  unfold get_subtitle_napisy24
  rw [h]

/-- The form data for the all-zero 131072-byte file builds successfully. -/
lemma napisy24_pdata_zeroBig (filename digest lang : String) :
    napisy24_pdata filename digest lang zeroBig
      = .ok ([("postAction", "CheckSub"), ("ua", "pynapi"), ("ap", "XaA!29OkF5Pe"),
          ("nl", lang), ("fn", filename), ("fh", toHex16 131072),
          ("fs", toString zeroBig.size)]
        ++ (if digest = "" then [] else [("md5", digest)])) := by
  unfold napisy24_pdata
  rw [napisy24_hash_zeroBig]

lemma npLoop_attempts_le (resp : Nat → PrimaryResp) :
    ∀ (rpt idx : Nat) (sub : Option (List Nat)) (error : String) (sleeps : Nat),
      (npLoop resp rpt idx sub error sleeps).attempts ≤ idx + rpt := by
  intro rpt
  induction rpt with
  | zero =>
    intro idx sub error sleeps
    show (npFinish sub error idx sleeps).attempts ≤ idx + 0
    cases sub with
    | none => simp [npFinish_none]
    | some bs => simp [npFinish_some]
  | succ r ih =>
    intro idx sub error sleeps
    cases hresp : resp idx with
    | transport m =>
      rw [np_step_transport resp r idx sub error sleeps m hresp]
      have := ih (idx + 1) sub (error ++ " " ++ m) (sleeps + 1)
      omega
    | http ok code body =>
      cases ok with
      | false =>
        rw [np_step_httpFail resp r idx sub error sleeps code body hresp]
        have := ih (idx + 1) sub (error ++ ", HTTP code: " ++ toString code) (sleeps + 1)
        omega
      | true =>
        cases body with
        | malformed m =>
          rw [np_step_malformed resp r idx sub error sleeps code m hresp]
          have := ih (idx + 1) sub (error ++ " XML parsing: " ++ m) (sleeps + 1)
          omega
        | doc st cd =>
          by_cases hst : st = some (some "success")
          · subst hst
            cases cd with
            | none =>
              rw [np_step_attrErr resp r idx sub error sleeps code hresp]
              have := ih (idx + 1) sub (error ++ " XML parsing: " ++ noneAttrMsg) (sleeps + 1)
              omega
            | some dec =>
              cases dec with
              | error m =>
                rw [np_step_decodeErr resp r idx sub error sleeps code m hresp]
                have := ih (idx + 1) sub (error ++ " XML parsing: " ++ m) (sleeps + 1)
                omega
              | ok bs =>
                rw [np_step_success resp r idx sub error sleeps code bs hresp]
                show idx + 1 ≤ idx + (r + 1)
                omega
          · rw [np_step_notFound resp r idx sub error sleeps code st cd hresp hst]
            have := ih (idx + 1) sub (error ++ " XML parsing: Subtitle NOT FOUND") (sleeps + 1)
            omega

lemma n24Loop_attempts_le (resp : Nat → SecondaryResp)
    (zipRead : List Nat → Except String (List Nat)) :
    ∀ (rpt idx : Nat) (sub : Option (List Nat)) (error : String) (sleeps : Nat),
      (n24Loop resp zipRead rpt idx sub error sleeps).attempts ≤ idx + rpt := by
  intro rpt
  induction rpt with
  | zero =>
    intro idx sub error sleeps
    show (n24Finish sub error idx sleeps).attempts ≤ idx + 0
    cases sub with
    | none => simp [n24Finish_none]
    | some bs => simp [n24Finish_some]
  | succ r ih =>
    intro idx sub error sleeps
    cases hresp : resp idx with
    | transport m =>
      rw [n24_step_transport resp zipRead r idx sub error sleeps m hresp]
      have := ih (idx + 1) sub (error ++ " " ++ m) (sleeps + 1)
      omega
    | http ok code content =>
      cases ok with
      | false =>
        rw [n24_step_httpFail resp zipRead r idx sub error sleeps code content hresp]
        have := ih (idx + 1) sub (error ++ ", HTTP code: " ++ toString code) (sleeps + 1)
        omega
      | true =>
        by_cases h2 : listIsPref okTwoBarMarker content = true
        · by_cases hpos : 2 ≤ bytesFind content barBar
              ∧ bytesFind content barBar + 2 < (content.length : Int)
          · cases hzip : zipRead (content.drop (bytesFind content barBar + 2).toNat) with
            | ok s =>
              rw [n24_step_zipOk resp zipRead r idx sub error sleeps code content s
                hresp h2 hpos hzip]
              show idx + 1 ≤ idx + (r + 1)
              omega
            | error e =>
              rw [n24_step_zipErr resp zipRead r idx sub error sleeps code content e
                hresp h2 hpos hzip]
              show idx + 1 ≤ idx + (r + 1)
              omega
          · rw [n24_step_tooShort resp zipRead r idx sub error sleeps code content
              hresp h2 hpos]
            show idx + 1 ≤ idx + (r + 1)
            omega
        · rw [Bool.not_eq_true] at h2
          by_cases h3 : listIsPref okDashMarker content = true
          · rw [n24_step_okDash resp zipRead r idx sub error sleeps code content
              hresp h2 h3]
            show idx + 1 ≤ idx + (r + 1)
            omega
          · rw [Bool.not_eq_true] at h3
            rw [n24_step_unknown resp zipRead r idx sub error sleeps code content
              hresp h2 h3]
            show idx + 1 ≤ idx + (r + 1)
            omega

/-- C3: the chain always consults the Primary provider first.  When
Primary succeeds, its decoded bytes are the chain's result for every
behaviour of the video file, the Secondary wire and the zip reader (so
neither the Secondary provider nor the QuickSignature computation is ever
invoked).  Only when Primary fails is the Secondary called — on the same
file, digest and language — and the already-computed ContentDigest rides
along in the posted form data as the `md5` field whenever truthy. -/
theorem C3_chain_primary_first :
    (∀ (file digest lang : String) (video : File) (primary : Nat → PrimaryResp)
        (secondary : Nat → SecondaryResp)
        (zipRead : List Nat → Except String (List Nat)) (s : List Nat),
      primaryAttempt digest lang primary = .ok s →
      fetchPhase file digest lang video primary secondary zipRead = .ok s)
    ∧ (∀ (file digest lang : String) (video : File) (primary : Nat → PrimaryResp)
        (secondary : Nat → SecondaryResp)
        (zipRead : List Nat → Except String (List Nat)) (e : String),
      primaryAttempt digest lang primary = .error e →
      fetchPhase file digest lang video primary secondary zipRead
        = (get_subtitle_napisy24 file digest lang video secondary zipRead).result)
    ∧ (∀ (filename digest lang : String) (video : File) (h : String),
      napisy24_hash filename video = .ok h → digest ≠ "" →
      ∃ pd, napisy24_pdata filename digest lang video = .ok pd
        ∧ ("md5", digest) ∈ pd) := by
  refine ⟨?_, ?_, ?_⟩
  · intro file digest lang video primary secondary zipRead s hp
    unfold fetchPhase
    rw [hp]
  · intro file digest lang video primary secondary zipRead e hp
    unfold fetchPhase
    rw [hp]
  · intro filename digest lang video h hh hd
    unfold napisy24_pdata
    rw [hh]
    refine ⟨_, rfl, ?_⟩
    rw [if_neg hd]
    simp

/-- Witness for C3: a first-attempt Primary success is returned unchanged
with a dead Secondary wire, and the posted Secondary form data carries the
digest as `md5`. -/
theorem C3_witness :
    fetchPhase "movie.mkv" "d4e5" "pl" smallFile (okPrimary [7, 8]) transportOnly
        zipNone = .ok [7, 8]
    ∧ ∃ pd, napisy24_pdata "movie.avi" "d4e5" "pl" zeroBig = .ok pd
        ∧ ("md5", "d4e5") ∈ pd :=
  ⟨C3_chain_primary_first.1 "movie.mkv" "d4e5" "pl" smallFile (okPrimary [7, 8])
      transportOnly zipNone [7, 8] (by decide),
    C3_chain_primary_first.2.2 "movie.avi" "d4e5" "pl" zeroBig (toHex16 131072)
      (napisy24_hash_zeroBig "movie.avi") (by decide)⟩

/-- The chain environment used for C4: the Primary wire always raises a
transport error carrying `m`; the video file is too small, so the
Secondary attempt fails while building its form data. -/
def envC4 (m : String) : Env :=
  ⟨smallFile, fun _ => "D", true, "", true, "", fun _ => .transport m,
    fun _ => .transport "secondary also down", zipNone, true, ""⟩

/-- C4, counterexample.  Both providers fail, with two different Primary
failure descriptions in the two runs, yet the chain-level report is the
same string both times — exactly the Secondary failure description, which
mentions nothing of the Primary failure.  The inner `except` of
`process_file` prints only `sys.exc_info()[1]`, i.e. the Secondary
exception. -/
theorem C4_counterexample :
    (process_file ⟨"pl", false, false, none⟩ "napiprojekt:abc"
        (envC4 "connection reset by peer") fs0).2
      = .done (.failed ("Hashing (napisy24) video file failed: '"
          ++ "napiprojekt:abc" ++ "': File too small"))
    ∧ (process_file ⟨"pl", false, false, none⟩ "napiprojekt:abc"
        (envC4 "no route to host") fs0).2
      = .done (.failed ("Hashing (napisy24) video file failed: '"
          ++ "napiprojekt:abc" ++ "': File too small"))
    ∧ "connection reset by peer" ≠ "no route to host" :=
  ⟨by decide, by decide, by decide⟩

/-- C4, amended: whenever both providers fail, the chain-level error is
exactly the Secondary failure; the Primary failure description is
discarded — the chain result is unchanged under any change of the failing
Primary behaviour. -/
theorem C4_secondary_error_only_amended :
    ∀ (file digest lang : String) (video : File)
      (primary primary' : Nat → PrimaryResp) (secondary : Nat → SecondaryResp)
      (zipRead : List Nat → Except String (List Nat)) (e e' : String),
      primaryAttempt digest lang primary = .error e →
      primaryAttempt digest lang primary' = .error e' →
      fetchPhase file digest lang video primary secondary zipRead
        = (get_subtitle_napisy24 file digest lang video secondary zipRead).result
      ∧ fetchPhase file digest lang video primary secondary zipRead
        = fetchPhase file digest lang video primary' secondary zipRead := by
  intro file digest lang video primary primary' secondary zipRead e e' hp hp'
  unfold fetchPhase
  rw [hp, hp']
  exact ⟨rfl, rfl⟩

/-- Witness for C4's amended theorem: two distinct failing Primary wires
give the same chain result, the Secondary's own. -/
theorem C4_amended_witness :
    fetchPhase "movie.avi" "d" "pl" smallFile primaryTransport transportOnly zipNone
      = (get_subtitle_napisy24 "movie.avi" "d" "pl" smallFile transportOnly
          zipNone).result
    ∧ fetchPhase "movie.avi" "d" "pl" smallFile primaryTransport transportOnly zipNone
      = fetchPhase "movie.avi" "d" "pl" smallFile (fun _ => .transport "other")
          transportOnly zipNone :=
  C4_secondary_error_only_amended "movie.avi" "d" "pl" smallFile primaryTransport
    (fun _ => .transport "other") transportOnly zipNone
    "Fetching subtitle (napiprojekt) failed: connection refused connection refused connection refused"
    "Fetching subtitle (napiprojekt) failed: other other other"
    (by decide) (by decide)

/-- A Primary wire whose first response is a well-formed non-success
document and whose later responses are successes. -/
def notFoundThenSuccess : Nat → PrimaryResp := fun i =>
  if i = 0 then .http true 200 (.doc (some (some "nope")) none)
  else .http true 200 (.doc (some (some "success")) (some (.ok [7])))

/-- C5, counterexample.  The first Primary response is a well-formed
not-found document; the claim says this immediately ends the provider's
attempt, but the code retries: a second attempt is consumed (with one
backoff sleep) and its success is returned. -/
theorem C5_counterexample :
    notFoundThenSuccess 0 = .http true 200 (.doc (some (some "nope")) none)
    ∧ get_subtitle_napiprojekt "d" "PL" notFoundThenSuccess = ⟨.ok [7], 2, 1⟩ :=
  ⟨by decide, by decide⟩

/-- C5, amended: transport errors and non-success HTTP responses are
retried (one backoff sleep, next attempt) in both providers, and attempts
never exceed 3.  In the Secondary provider a parsed not-found,
unrecognised, too-short or zip-failing response immediately ends the
provider (one attempt consumed, no backoff).  In the Primary provider,
however, a well-formed not-found document and every parse error —
malformed XML, a missing `subtitles/content` element, a base64 decode
failure — are retried exactly like transport errors. -/
theorem C5_retry_policy_amended :
    (∀ (resp : Nat → PrimaryResp) (r idx : Nat) (sub : Option (List Nat))
        (error : String) (sleeps : Nat) (m : String), resp idx = .transport m →
      npLoop resp (r + 1) idx sub error sleeps
        = npLoop resp r (idx + 1) sub (error ++ " " ++ m) (sleeps + 1))
    ∧ (∀ (resp : Nat → PrimaryResp) (r idx : Nat) (sub : Option (List Nat))
        (error : String) (sleeps code : Nat) (body : PrimaryBody),
        resp idx = .http false code body →
      npLoop resp (r + 1) idx sub error sleeps
        = npLoop resp r (idx + 1) sub (error ++ ", HTTP code: " ++ toString code)
            (sleeps + 1))
    ∧ (∀ (resp : Nat → PrimaryResp) (r idx : Nat) (sub : Option (List Nat))
        (error : String) (sleeps code : Nat) (st : Option (Option String))
        (cd : Option (Except String (List Nat))),
        resp idx = .http true code (.doc st cd) → st ≠ some (some "success") →
      npLoop resp (r + 1) idx sub error sleeps
        = npLoop resp r (idx + 1) sub
            (error ++ " XML parsing: Subtitle NOT FOUND") (sleeps + 1))
    ∧ (∀ (resp : Nat → PrimaryResp) (r idx : Nat) (sub : Option (List Nat))
        (error : String) (sleeps code : Nat) (m : String),
        resp idx = .http true code (.malformed m) →
      npLoop resp (r + 1) idx sub error sleeps
        = npLoop resp r (idx + 1) sub (error ++ " XML parsing: " ++ m) (sleeps + 1))
    ∧ (∀ (resp : Nat → PrimaryResp) (r idx : Nat) (sub : Option (List Nat))
        (error : String) (sleeps code : Nat),
        resp idx = .http true code (.doc (some (some "success")) none) →
      npLoop resp (r + 1) idx sub error sleeps
        = npLoop resp r (idx + 1) sub (error ++ " XML parsing: " ++ noneAttrMsg)
            (sleeps + 1))
    ∧ (∀ (resp : Nat → PrimaryResp) (r idx : Nat) (sub : Option (List Nat))
        (error : String) (sleeps code : Nat) (m : String),
        resp idx = .http true code (.doc (some (some "success")) (some (.error m))) →
      npLoop resp (r + 1) idx sub error sleeps
        = npLoop resp r (idx + 1) sub (error ++ " XML parsing: " ++ m) (sleeps + 1))
    ∧ (∀ (resp : Nat → SecondaryResp)
        (zipRead : List Nat → Except String (List Nat)) (r idx : Nat)
        (sub : Option (List Nat)) (error : String) (sleeps : Nat) (m : String),
        resp idx = .transport m →
      n24Loop resp zipRead (r + 1) idx sub error sleeps
        = n24Loop resp zipRead r (idx + 1) sub (error ++ " " ++ m) (sleeps + 1))
    ∧ (∀ (resp : Nat → SecondaryResp)
        (zipRead : List Nat → Except String (List Nat)) (r idx : Nat)
        (sub : Option (List Nat)) (error : String) (sleeps code : Nat)
        (content : List Nat), resp idx = .http false code content →
      n24Loop resp zipRead (r + 1) idx sub error sleeps
        = n24Loop resp zipRead r (idx + 1) sub
            (error ++ ", HTTP code: " ++ toString code) (sleeps + 1))
    ∧ (∀ (resp : Nat → SecondaryResp)
        (zipRead : List Nat → Except String (List Nat)) (r idx : Nat)
        (sub : Option (List Nat)) (error : String) (sleeps code : Nat)
        (content : List Nat), resp idx = .http true code content →
        listIsPref okTwoBarMarker content = false →
        listIsPref okDashMarker content = true →
      n24Loop resp zipRead (r + 1) idx sub error sleeps
        = ⟨.error "Subtitle NOT FOUND", idx + 1, sleeps⟩)
    ∧ (∀ (resp : Nat → SecondaryResp)
        (zipRead : List Nat → Except String (List Nat)) (r idx : Nat)
        (sub : Option (List Nat)) (error : String) (sleeps code : Nat)
        (content : List Nat), resp idx = .http true code content →
        listIsPref okTwoBarMarker content = false →
        listIsPref okDashMarker content = false →
      n24Loop resp zipRead (r + 1) idx sub error sleeps
        = ⟨.error "Subtitle NOT FOUND (unknown error)", idx + 1, sleeps⟩)
    ∧ (∀ (resp : Nat → SecondaryResp)
        (zipRead : List Nat → Except String (List Nat)) (r idx : Nat)
        (sub : Option (List Nat)) (error : String) (sleeps code : Nat)
        (content : List Nat), resp idx = .http true code content →
        listIsPref okTwoBarMarker content = true →
        ¬ (2 ≤ bytesFind content barBar
          ∧ bytesFind content barBar + 2 < (content.length : Int)) →
      n24Loop resp zipRead (r + 1) idx sub error sleeps
        = ⟨.error "Subtitle NOT FOUND (subtitle too short)", idx + 1, sleeps⟩)
    ∧ (∀ (resp : Nat → SecondaryResp)
        (zipRead : List Nat → Except String (List Nat)) (r idx : Nat)
        (sub : Option (List Nat)) (error : String) (sleeps code : Nat)
        (content : List Nat) (e : String), resp idx = .http true code content →
        listIsPref okTwoBarMarker content = true →
        (2 ≤ bytesFind content barBar
          ∧ bytesFind content barBar + 2 < (content.length : Int)) →
        zipRead (content.drop (bytesFind content barBar + 2).toNat) = .error e →
      n24Loop resp zipRead (r + 1) idx sub error sleeps
        = ⟨.error ("Subtitle NOT FOUND " ++ e), idx + 1, sleeps⟩)
    ∧ (∀ (d l : String) (resp : Nat → PrimaryResp),
        get_subtitle_napiprojekt d l resp
          = npLoop resp 3 0 none "Fetching subtitle (napiprojekt) failed:" 0
        ∧ (get_subtitle_napiprojekt d l resp).attempts ≤ 3)
    ∧ (∀ (filename digest lang : String) (video : File)
        (resp : Nat → SecondaryResp)
        (zipRead : List Nat → Except String (List Nat)),
        (get_subtitle_napisy24 filename digest lang video resp zipRead).attempts
          ≤ 3) := by
  refine ⟨np_step_transport, np_step_httpFail, np_step_notFound, np_step_malformed,
    np_step_attrErr, np_step_decodeErr, n24_step_transport, n24_step_httpFail,
    n24_step_okDash, n24_step_unknown, n24_step_tooShort, n24_step_zipErr, ?_, ?_⟩
  · intro d l resp
    refine ⟨rfl, ?_⟩
    show (npLoop resp 3 0 none "Fetching subtitle (napiprojekt) failed:" 0).attempts ≤ 3
    have := npLoop_attempts_le resp 3 0 none "Fetching subtitle (napiprojekt) failed:" 0
    omega
  · intro filename digest lang video resp zipRead
    unfold get_subtitle_napisy24
    cases hpd : napisy24_pdata filename digest lang video with
    | error e => simp
    | ok pd =>
      have := n24Loop_attempts_le resp zipRead 3 0 none
        "Fetching subtitle (napisy24) failed:" 0
      simpa using this

/-- A Secondary wire answering `OK-0` on every attempt. -/
def okDashWire : Nat → SecondaryResp := fun _ => .http true 200 [79, 75, 45, 48]

/-- A Primary wire whose every response body fails to parse as XML. -/
def malformedWire : Nat → PrimaryResp := fun _ => .http true 200 (.malformed "not xml")

/-- Witness for C5's amended theorem: a transport error and a parse error
at attempt 0 of the Primary loop both continue into attempt 1, while an
`OK-0` response ends the Secondary loop on its first attempt without a
backoff sleep. -/
theorem C5_amended_witness :
    npLoop primaryTransport (2 + 1) 0 none "E" 0
      = npLoop primaryTransport 2 1 none ("E" ++ " " ++ "connection refused") 1
    ∧ npLoop malformedWire (2 + 1) 0 none "E" 0
      = npLoop malformedWire 2 1 none ("E" ++ " XML parsing: " ++ "not xml") 1
    ∧ n24Loop okDashWire zipNone (2 + 1) 0 none "E" 0
      = ⟨.error "Subtitle NOT FOUND", 0 + 1, 0⟩ :=
  ⟨C5_retry_policy_amended.1 primaryTransport 2 0 none "E" 0 "connection refused" rfl,
    C5_retry_policy_amended.2.2.2.1 malformedWire 2 0 none "E" 0 200 "not xml" rfl,
    C5_retry_policy_amended.2.2.2.2.2.2.2.2.1 okDashWire zipNone 2 0 none "E" 0 200
      [79, 75, 45, 48] rfl (by decide) (by decide)⟩

/-- C6: exhausting all three Secondary attempts (here: three transport
errors against a hashable 131072-byte file) does not raise the aggregated
error the claim and the napiprojekt twin produce — `sub` was never
initialised in `get_subtitle_napisy24`, so line 160 raises
`UnboundLocalError` and the accumulated error string is dead.  The Primary
provider, which does initialise `sub = None`, aggregates all three
attempts' descriptions as claimed. -/
theorem C6_secondary_unbound_local :
    (get_subtitle_napisy24 "movie.avi" "d4" "pl" zeroBig transportOnly
        zipNone).result = .error unboundLocalMsg
    ∧ (get_subtitle_napisy24 "movie.avi" "d4" "pl" zeroBig transportOnly
        zipNone).attempts = 3
    ∧ (get_subtitle_napiprojekt "d4" "PL" primaryTransport).result
      = .error "Fetching subtitle (napiprojekt) failed: connection refused connection refused connection refused" := by
  rw [get_n24_eq_loop "movie.avi" "d4" "pl" zeroBig transportOnly zipNone _
    (napisy24_pdata_zeroBig "movie.avi" "d4" "pl")]
  exact ⟨by decide, by decide, by decide⟩

/-- An environment whose every stage succeeds except the final write. -/
def env7 : Env :=
  ⟨smallFile, fun _ => "D", true, "", true, "", okPrimary [7], transportOnly,
    zipNone, false, "Disk full"⟩

/-- C7, counterexample.  A filesystem failure during the final write is
not caught by any `try` in `process_file`: the exception escapes the
per-file boundary (and, through `asyncio.gather`, aborts the batch run)
instead of being reported as a per-file outcome. -/
theorem C7_counterexample :
    (process_file ⟨"pl", false, true, none⟩ "napiprojekt:abc" env7 fs0).2
      = .escaped "Disk full" := by decide

/-- C7, amended: every failure up to and including the fetch stage is
caught at the per-file boundary and reported (when the final write
succeeds, no exception ever escapes `process_file`); a filesystem failure
during the final write, however, is not caught — when the write fails the
run never reports a written outcome, it escapes. -/
theorem C7_per_file_boundary_amended :
    (∀ (args : Args) (file : String) (env : Env) (fs : FS) (m : String),
      env.writeOk = true → (process_file args file env fs).2 ≠ .escaped m)
    ∧ (∀ (args : Args) (file : String) (env : Env) (fs : FS) (p : String) (n : Nat),
      env.writeOk = false →
      (process_file args file env fs).2 ≠ .done (.written p n)) := by
  constructor
  · intro args file env fs m hok
    simp only [process_file]
    split
    · simp
    · split
      · simp
      · split
        · simp
        · split
          · simp
          · simp
  · intro args file env fs p n hok
    simp only [process_file]
    split
    · simp
    · split
      · simp
      · split
        · simp
        · split
          · simp
          · simp [hok]

/-- An environment whose every stage succeeds, write included. -/
def envOkWrite : Env :=
  ⟨smallFile, fun _ => "D", true, "", true, "", okPrimary [7], transportOnly,
    zipNone, true, ""⟩

/-- Witness for C7's amended theorem at a fully-succeeding environment. -/
theorem C7_amended_witness :
    (process_file ⟨"pl", false, true, none⟩ "napiprojekt:abc" envOkWrite fs0).2
      ≠ .escaped "Disk full" :=
  C7_per_file_boundary_amended.1 ⟨"pl", false, true, none⟩ "napiprojekt:abc"
    envOkWrite fs0 "Disk full" rfl

/-- Default-flag arguments: language `pl`, backups on, no update, no
destination override. -/
def argsPlain : Args := ⟨"pl", false, false, none⟩

/-- An environment where digest, Primary fetch and write all succeed. -/
def envFetchOk : Env :=
  ⟨smallFile, fun _ => "deadbeef", true, "", true, "", okPrimary [7, 8],
    transportOnly, zipNone, true, ""⟩

/-- C8, counterexample.  For `movie.mpeg` — a video extension of five
characters — the code drops the last four characters and appends `.txt`,
producing `movie..txt`, whereas the claim's "existing extension replaced
by `.txt`" yields `movie.txt`; `process_file` really writes to
`movie..txt`. -/
theorem C8_counterexample :
    resolve_vfile "movie.mpeg" none = "movie..txt"
    ∧ replaceExt_claim "movie.mpeg" = "movie.txt"
    ∧ "movie..txt" ≠ "movie.txt"
    ∧ (process_file argsPlain "movie.mpeg" envFetchOk fs0).2
      = .done (.written "movie..txt" 2) :=
  ⟨by decide, by decide, by decide, by decide⟩

/-- C8, amended: the output path is a deterministic function of the input
token and the destination override only — whatever the environment and
filesystem, a written outcome's path is `resolve_vfile` of the token; for
a non-token input longer than 4 characters the name's last four characters
(not its extension) are replaced by `.txt`; a destination override rebases
using only the base name. -/
theorem C8_output_path_amended :
    (∀ (args : Args) (file : String) (env : Env) (fs : FS) (p : String) (n : Nat),
      (process_file args file env fs).2 = .done (.written p n) →
      p = resolve_vfile file args.dest)
    ∧ (∀ file : String, strStartsWith file "napiprojekt:" = false →
      4 < file.length → resolve_vfile file none = strDropRight file 4 ++ ".txt")
    ∧ (∀ (file d : String), d ≠ "" →
      resolve_vfile file (some d) = osJoin d (osBasename (resolve_vfile file none))) := by
  refine ⟨?_, ?_, ?_⟩
  · intro args file env fs p n
    simp only [process_file]
    split
    · simp
    · split
      · simp
      · split
        · simp
        · split
          · simp
          · split
            · intro h
              simp only [Prod.snd] at h
              rw [PfResult.done.injEq, Outcome.written.injEq] at h
              exact h.1.symm
            · simp
  · intro file h1 h2
    simp [resolve_vfile, h1, h2]
  · intro file d hd
    simp [resolve_vfile, hd]

/-- Witness for C8's amended theorem. -/
theorem C8_amended_witness :
    "movie..txt" = resolve_vfile "movie.mpeg" none
    ∧ resolve_vfile "clip1.mkv" none = strDropRight "clip1.mkv" 4 ++ ".txt"
    ∧ resolve_vfile "dir/clip1.mkv" (some "out")
      = osJoin "out" (osBasename (resolve_vfile "dir/clip1.mkv" none)) :=
  ⟨C8_output_path_amended.1 argsPlain "movie.mpeg" envFetchOk fs0 "movie..txt" 2
      (by decide),
    C8_output_path_amended.2.1 "clip1.mkv" (by decide) (by decide),
    C8_output_path_amended.2.2 "dir/clip1.mkv" "out" (by decide)⟩

lemma appendBak_ne (s : String) : s ++ "-bak" ≠ s := by
  intro h
  have hlen := congrArg String.length h
  rw [String.length_append] at hlen
  have h4 : ("-bak" : String).length = 4 := rfl
  omega

/-- C9: with update mode on, backups enabled and the output path present,
a rename failure ends the file as Failed with the filesystem untouched and
no fetch attempted (the result is the same for every provider wire and zip
reader, which are universally quantified in the environment); on a
successful end-to-end run the new subtitle sits at the output path and the
old content sits at `<path>-bak`. -/
theorem C9_backup_behaviour :
    ∀ (args : Args) (file : String) (env : Env) (fs : FS) (old : List Nat),
      args.update = true → args.nobackup = false →
      fs (resolve_vfile file args.dest) = some old →
      ((env.renameOk = false →
        process_file args file env fs
          = (fs, .done (.failed ("Skipping due to backup of '"
              ++ resolve_vfile file args.dest ++ "' as '"
              ++ (resolve_vfile file args.dest ++ "-bak") ++ "' failure: "
              ++ env.renameErr))))
      ∧ (∀ (digest : String) (sub : List Nat),
          env.renameOk = true →
          digestStage env file = .ok digest →
          fetchPhase file digest args.lang env.video env.primary env.secondary
            env.zipRead = .ok sub →
          env.writeOk = true →
          (process_file args file env fs).1 (resolve_vfile file args.dest) = some sub
          ∧ (process_file args file env fs).1
              (resolve_vfile file args.dest ++ "-bak") = some old
          ∧ (process_file args file env fs).2
            = .done (.written (resolve_vfile file args.dest) sub.length))) := by
  intro args file env fs old hupd hnb hold
  constructor
  · intro hren
    simp only [process_file, hupd, hnb, hold, hren]
    simp
  · intro digest sub hren hdig hfetch hwrite
    have hpf : process_file args file env fs
        = (fsWrite (fsRename fs (resolve_vfile file args.dest)
              (resolve_vfile file args.dest ++ "-bak"))
            (resolve_vfile file args.dest) sub,
          .done (.written (resolve_vfile file args.dest) sub.length)) := by
      simp only [process_file, hupd, hnb, hold, hren, hdig, hfetch, hwrite]
      simp
    rw [hpf]
    refine ⟨?_, ?_, rfl⟩
    · simp [fsWrite]
    · simp only [fsWrite, fsRename]
      rw [if_neg (appendBak_ne (resolve_vfile file args.dest))]
      simp [hold]

/-- The filesystem for C9's witness: an existing subtitle at `abc.txt`. -/
def fsOld : FS := fun p => if p = "abc.txt" then some [9] else none

/-- The C9 environment in which the backup rename fails. -/
def envRenameFail : Env :=
  ⟨smallFile, fun _ => "D", true, "", false, "permission denied", okPrimary [7, 8],
    transportOnly, zipNone, true, ""⟩

/-- Update-mode arguments with backups enabled. -/
def argsUpd : Args := ⟨"pl", false, true, none⟩

/-- Witness for C9 at concrete runs: the rename failure ends the file with
the filesystem unchanged, and a successful run leaves new content at the
output path and the old content at the backup path. -/
theorem C9_witness :
    process_file argsUpd "napiprojekt:abc" envRenameFail fsOld
      = (fsOld, .done (.failed ("Skipping due to backup of '"
          ++ resolve_vfile "napiprojekt:abc" argsUpd.dest ++ "' as '"
          ++ (resolve_vfile "napiprojekt:abc" argsUpd.dest ++ "-bak")
          ++ "' failure: " ++ envRenameFail.renameErr)))
    ∧ (process_file argsUpd "napiprojekt:abc" envFetchOk fsOld).1
        (resolve_vfile "napiprojekt:abc" argsUpd.dest) = some [7, 8]
    ∧ (process_file argsUpd "napiprojekt:abc" envFetchOk fsOld).1
        (resolve_vfile "napiprojekt:abc" argsUpd.dest ++ "-bak") = some [9] :=
  ⟨(C9_backup_behaviour argsUpd "napiprojekt:abc" envRenameFail fsOld [9] rfl rfl
      (by decide)).1 rfl,
    ((C9_backup_behaviour argsUpd "napiprojekt:abc" envFetchOk fsOld [9] rfl rfl
      (by decide)).2 "abc" [7, 8] rfl (by decide) (by decide) rfl).1,
    ((C9_backup_behaviour argsUpd "napiprojekt:abc" envFetchOk fsOld [9] rfl rfl
      (by decide)).2 "abc" [7, 8] rfl (by decide) (by decide) rfl).2.1⟩

/-- The Secondary success payload `b"OK-2|A||PK"`: marker, one byte, the
`||` separator at index 6, then the (here two-byte) zip region. -/
def okTwoBarPayload : List Nat := [79, 75, 45, 50, 124, 65, 124, 124, 80, 75]

/-- C10: the final guards compare a bytes value with the `str` `""`, which
is never true, so a payload that decodes to zero bytes is returned as a
success by either provider, and `process_file` then writes a 0-byte output
file instead of reporting the aggregated error. -/
theorem C10_empty_payload_success :
    (∀ b : List Nat, pyEqBytesStr b "" = false)
    ∧ (∀ (d l : String) (resp : Nat → PrimaryResp),
        resp 0 = .http true 200 (.doc (some (some "success")) (some (.ok []))) →
        get_subtitle_napiprojekt d l resp = ⟨.ok [], 1, 0⟩)
    ∧ (∀ (filename digest lang : String) (video : File)
        (pd : List (String × String)) (resp : Nat → SecondaryResp)
        (zipRead : List Nat → Except String (List Nat)),
        napisy24_pdata filename digest lang video = .ok pd →
        resp 0 = .http true 200 okTwoBarPayload →
        zipRead [80, 75] = .ok [] →
        get_subtitle_napisy24 filename digest lang video resp zipRead
          = ⟨.ok [], 1, 0⟩)
    ∧ (∀ (args : Args) (file : String) (env : Env) (fs : FS) (digest : String),
        (fs (resolve_vfile file args.dest)).isSome = false →
        digestStage env file = .ok digest →
        primaryAttempt digest args.lang env.primary = .ok [] →
        env.writeOk = true →
        (process_file args file env fs).2
          = .done (.written (resolve_vfile file args.dest) 0)
        ∧ (process_file args file env fs).1 (resolve_vfile file args.dest)
          = some []) := by
  refine ⟨fun b => rfl, ?_, ?_, ?_⟩
  · intro d l resp h
    exact np_step_success resp 2 0 none "Fetching subtitle (napiprojekt) failed:" 0
      200 [] h
  · intro filename digest lang video pd resp zipRead hpd hresp hz
    rw [get_n24_eq_loop filename digest lang video resp zipRead pd hpd]
    have hdrop : okTwoBarPayload.drop
        (bytesFind okTwoBarPayload barBar + 2).toNat = [80, 75] := by decide
    exact n24_step_zipOk resp zipRead 2 0 none "Fetching subtitle (napisy24) failed:"
      0 200 okTwoBarPayload [] hresp (by decide) (by decide) (by rw [hdrop]; exact hz)
  · intro args file env fs digest hfs hdig hprim hwrite
    have hfetch : fetchPhase file digest args.lang env.video env.primary
        env.secondary env.zipRead = .ok [] := by
      unfold fetchPhase
      rw [hprim]
    have hpf : process_file args file env fs
        = (fsWrite fs (resolve_vfile file args.dest) [],
          .done (.written (resolve_vfile file args.dest) 0)) := by
      simp only [process_file, hfs, hdig, hfetch, hwrite]
      simp
    rw [hpf]
    exact ⟨rfl, by simp [fsWrite]⟩

/-- A Secondary wire answering the `OK-2|A||PK` payload every time. -/
def okTwoBarWire : Nat → SecondaryResp := fun _ => .http true 200 okTwoBarPayload

/-- A zip reader whose first entry is empty. -/
def zipEmpty : List Nat → Except String (List Nat) := fun _ => .ok []

/-- An environment whose Primary success decodes to zero bytes. -/
def envEmptySub : Env :=
  ⟨smallFile, fun _ => "deadbeef", true, "", true, "", okPrimary [], transportOnly,
    zipNone, true, ""⟩

/-- Witness for C10: empty payloads flow through both providers and
`process_file` writes the 0-byte file. -/
theorem C10_witness :
    get_subtitle_napiprojekt "d" "PL" (okPrimary []) = ⟨.ok [], 1, 0⟩
    ∧ get_subtitle_napisy24 "movie.avi" "d" "pl" zeroBig okTwoBarWire zipEmpty
      = ⟨.ok [], 1, 0⟩
    ∧ (process_file argsPlain "movie.avi" envEmptySub fs0).2
      = .done (.written (resolve_vfile "movie.avi" argsPlain.dest) 0) :=
  ⟨C10_empty_payload_success.2.1 "d" "PL" (okPrimary []) rfl,
    C10_empty_payload_success.2.2.1 "movie.avi" "d" "pl" zeroBig _ okTwoBarWire
      zipEmpty (napisy24_pdata_zeroBig "movie.avi" "d" "pl") rfl rfl,
    (C10_empty_payload_success.2.2.2 argsPlain "movie.avi" envEmptySub fs0 "deadbeef"
      rfl (by decide) (by decide) rfl).1⟩

end Pynapi
